import Mathlib

/-!
Verification of the blog-writer pipeline (files `tech_blog_pipeline.py`,
`Blog_Pipeline.py`).  The Python functions are shallowly embedded: pure
string manipulation is reproduced over `List Char`, the LangGraph state
record becomes a Lean structure, and each external service call (LLM,
research API, browser agent) is abstracted as an explicit function
argument whose result the embedded code consumes, with the `try/except`
outcome modelled by `Except String`.
-/

namespace BlogWriter

/-! ### Python string primitives, modelled over character lists -/

/-- The characters stripped by Python `str.strip()` with no argument. -/
def pyWhitespace : List Char := [' ', '\t', '\n', '\r', '\x0b', '\x0c']

/-- Python `s.strip(chars)`: remove leading and trailing characters
belonging to `chars` (from both ends, any order). -/
def py_strip_chars (chars : List Char) (s : String) : String :=
  ⟨((s.data.dropWhile (· ∈ chars)).reverse.dropWhile (· ∈ chars)).reverse⟩

/-- Python `s.strip()` (whitespace strip). -/
def py_strip (s : String) : String :=
  py_strip_chars pyWhitespace s

/-- Fuelled worker for Python `str.replace`: replaces non-overlapping
occurrences of `pat` left to right.  The fuel is the length of the
subject string, which suffices because every step consumes at least one
character when `pat` is non-empty (every pattern in the source is). -/
def replaceAllF (pat rep : List Char) : Nat → List Char → List Char
  | _, [] => []
  | 0, l => l
  | fuel + 1, c :: cs =>
    if pat.isPrefixOf (c :: cs) then
      rep ++ replaceAllF pat rep fuel ((c :: cs).drop pat.length)
    else
      c :: replaceAllF pat rep fuel cs

/-- Python `s.replace(pat, rep)` for a non-empty pattern. -/
def py_replace (s pat rep : String) : String :=
  ⟨replaceAllF pat.data rep.data s.data.length s.data⟩

/-- Split a character list at every occurrence of `sep`; the result
always has at least one (possibly empty) piece, matching Python
`str.split(sep)` with a one-character separator. -/
def splitOnChar (sep : Char) : List Char → List (List Char)
  | [] => [[]]
  | c :: cs =>
    let r := splitOnChar sep cs
    if c = sep then [] :: r
    else
      match r with
      | h :: t => (c :: h) :: t
      | [] => [[c]]

/-- Python `s.split('\n')`. -/
def py_split_lines (s : String) : List String :=
  (splitOnChar '\n' s.data).map String.mk

/-! ### A fragment of Python `ast.literal_eval`

Modelled from the spec: `ast.literal_eval` lives in the Python standard
library, outside this repository.  We model exactly the fragment the
selection stage relies on — a list of double-quoted string literals
without escape sequences, surrounded by optional whitespace — and return
`none` on every other input.  Real `literal_eval` accepts a larger
grammar; every concrete input used in a theorem below either lies inside
this fragment or is not literal syntax at all, so the model and the
library agree on them. -/

/-- Drop leading whitespace characters. -/
def skipWs : List Char → List Char
  | c :: cs => if c ∈ pyWhitespace then skipWs cs else c :: cs
  | [] => []

/-- Read the body of a double-quoted string literal (no escapes);
returns the literal's content and the characters after the closing
quote. -/
def parseStrLitAux (acc : List Char) : List Char → Option (String × List Char)
  | c :: cs =>
    if c = '"' then some (⟨acc.reverse⟩, cs)
    else if c = '\\' then none
    else parseStrLitAux (c :: acc) cs
  | [] => none

/-- Parse the comma-separated string literals of a non-empty list
literal, up to and including the closing bracket; the fuel bounds the
number of elements and is instantiated with the input length. -/
def parseElems : Nat → List Char → Option (List String)
  | 0, _ => none
  | fuel + 1, cs =>
    match skipWs cs with
    | '"' :: rest =>
      match parseStrLitAux [] rest with
      | some (str, rest2) =>
        match skipWs rest2 with
        | ',' :: rest3 => (parseElems fuel rest3).map (str :: ·)
        | ']' :: tail => if skipWs tail = [] then some [str] else none
        | _ => none
      | none => none
    | _ => none

/-- The modelled `ast.literal_eval`, restricted to lists of plain
double-quoted string literals. -/
def literal_eval_strlist (s : String) : Option (List String) :=
  match skipWs s.data with
  | '[' :: rest =>
    match skipWs rest with
    | ']' :: tail => if skipWs tail = [] then some [] else none
    | cs => parseElems (cs.length + 1) cs
  | _ => none

/-! ### The technical pipeline (`tech_blog_pipeline.py`) -/

/-- The shared LangGraph state `BlogState` of `tech_blog_pipeline.py`.
`completed_blogs` is a Python `dict` keyed by `current_idea` (an
`Optional[str]`); each stored value is the dict `{"blog_post": ...}`,
modelled by its single `blog_post` field.  It is represented as an
insertion-ordered association list, matching Python dict semantics. -/
structure BlogState where
  ideas : List String
  selected_ideas : List String
  current_idea : Option String
  research_data : Option String
  blog_post : Option String
  completed_blogs : List (Option String × Option String)
deriving DecidableEq, Repr

/-- Python `{**m, k: v}` on an insertion-ordered dict: overwrite in
place if the key is present, otherwise append the new binding. -/
def dictInsert (m : List (Option String × Option String)) (k v : Option String) :
    List (Option String × Option String) :=
  if m.any (fun p => p.1 == k) then
    m.map (fun p => if p.1 == k then (k, v) else p)
  else m ++ [(k, v)]

/-- A Python value returned by `content_selector`: either the raw string
`response.content` of the LLM call, or a list (the `except` branch
returns the empty list). -/
inductive RawSelected where
  | pyStr : String → RawSelected
  | pyList : List String → RawSelected
deriving DecidableEq, Repr

/-- `content_selector` (tech pipeline): invokes the LLM on a prompt
built from the ideas and returns `response.content`; on an exception it
returns the empty Python list.  The LLM call is abstracted as the
`Except`-valued argument `llm`. -/
def content_selector (llm : Except String String) : RawSelected :=
  match llm with
  | .ok content => .pyStr content
  | .error _ => .pyList []

/-- The try-block of `select_ideas`: strip markdown code fences, then
attempt `ast.literal_eval`; on failure fall back to line splitting,
keeping non-blank lines and stripping the characters of `"- *"` from
each line's ends. -/
def parse_selected (raw : RawSelected) : List String :=
  match raw with
  | .pyStr str =>
    let clean_str := py_strip (py_replace (py_replace (py_replace str "```python" "") "```json" "") "```" "")
    match literal_eval_strlist clean_str with
    | some l => l
    | none =>
      ((py_split_lines clean_str).filter (fun line => py_strip line != "")).map
        (py_strip_chars ['-', ' ', '*'])
  | .pyList l => l

/-- `select_ideas` node: parse the selector's output, keep the items
that are non-blank strings, and reset `completed_blogs` to the empty
dict.  The LLM call inside `content_selector` is the argument `llm`. -/
def select_ideas (llm : Except String String) (state : BlogState) : BlogState :=
  let parsed_selected := parse_selected (content_selector llm)
  let cleaned := parsed_selected.filter (fun item => py_strip item != "")
  { state with selected_ideas := cleaned, completed_blogs := [] }

/-- `pick_next_idea` node: pop the front of the queue into
`current_idea` when the queue is non-empty, otherwise return the state
unchanged. -/
def pick_next_idea (state : BlogState) : BlogState :=
  match state.selected_ideas with
  | next_idea :: rest =>
    { state with current_idea := some next_idea, selected_ideas := rest }
  | [] => state

/-- The two external text services the loop body consumes, abstracted
as functions of their observable inputs: `run_perplexity_agent`
applied to `current_idea`, and `blog_writer` applied to
`research_data` (both Python callees are total — they catch their own
exceptions and return a string). -/
structure ExternalCalls where
  perplexity : Option String → String
  writer : Option String → String
deriving Inhabited

/-- `research_agent` node. -/
def research_agent (ext : ExternalCalls) (state : BlogState) : BlogState :=
  { state with research_data := some (ext.perplexity state.current_idea) }

/-- `blog_writer_agent` node. -/
def blog_writer_agent (ext : ExternalCalls) (state : BlogState) : BlogState :=
  { state with blog_post := some (ext.writer state.research_data) }

/-- `ghost_drafter_agent` node: run the (result-ignored) browser draft,
record `current_idea ↦ {"blog_post": blog_post}` in `completed_blogs`,
and clear the three in-flight fields. -/
def ghost_drafter_agent (state : BlogState) : BlogState :=
  { state with
    completed_blogs := dictInsert state.completed_blogs state.current_idea state.blog_post,
    blog_post := none,
    current_idea := none,
    research_data := none }

/-- `has_more_ideas` conditional edge: `"pick_next"` on a truthy
(non-empty) queue, otherwise the LangGraph `END` sentinel. -/
def has_more_ideas (state : BlogState) : String :=
  if state.selected_ideas.isEmpty then "__end__" else "pick_next"

/-- One pass of the graph's loop: Pick Next → Research → Write →
Draft. -/
def loopBody (ext : ExternalCalls) (state : BlogState) : BlogState :=
  ghost_drafter_agent (blog_writer_agent ext (research_agent ext (pick_next_idea state)))

/-- The do-while loop the graph wires after `select_ideas`: run the
body, then re-enter `pick_next` while `has_more_ideas` says so.
Returns the final state and the number of loop iterations executed. -/
def runTechLoop (ext : ExternalCalls) (state : BlogState) : BlogState × Nat :=
  let s' := loopBody ext state
  if h : has_more_ideas s' = "pick_next" then
    let r := runTechLoop ext s'
    (r.1, r.2 + 1)
  else (s', 1)
termination_by state.selected_ideas.length
decreasing_by
  have hsel' : (loopBody ext state).selected_ideas = state.selected_ideas.tail := by
    cases hsel : state.selected_ideas <;>
      simp [loopBody, ghost_drafter_agent, blog_writer_agent, research_agent,
        pick_next_idea, hsel]
  have hne : (loopBody ext state).selected_ideas.isEmpty = false := by
    cases he : (loopBody ext state).selected_ideas.isEmpty with
    | false => rfl
    | true =>
      have h2 : (if (loopBody ext state).selected_ideas.isEmpty = true
          then "__end__" else "pick_next") = "pick_next" := h
      rw [he] at h2
      simp at h2
  rw [hsel'] at hne
  cases hsel : state.selected_ideas with
  | nil => rw [hsel] at hne; simp at hne
  | cons a l =>
    have hlen : (loopBody ext state).selected_ideas.length = l.length := by
      rw [hsel', hsel, List.tail_cons]
    rw [hlen]
    simp only [List.length_cons]
    omega

/-- The full technical run from the graph entry point: Select Ideas,
then the draining loop. -/
def runTechPipeline (llm : Except String String) (ext : ExternalCalls)
    (state : BlogState) : BlogState × Nat :=
  runTechLoop ext (select_ideas llm state)

/-- The blog recorded for an idea drained from a non-empty queue: the
writer's output on the researcher's output for that idea. -/
def blogFor (ext : ExternalCalls) (idea : String) : Option String :=
  some (ext.writer (some (ext.perplexity (some idea))))

/-! ### The retry wrapper (`run_agent_with_retry`) -/

/-- The `while retries < max_retries` loop of `run_agent_with_retry`.
The browser agent is abstracted as `agent : Nat → Option α`, giving the
outcome of the attempt made when the counter equals that value (`none`
models the attempt raising).  Returns the Python return value together
with the number of agent invocations performed. -/
def run_agent_with_retry_loop {α : Type} (agent : Nat → Option α)
    (max_retries retries : Nat) : Option α × Nat :=
  if _h : retries < max_retries then
    match agent retries with
    | some result => (some result, retries + 1)
    | none => run_agent_with_retry_loop agent max_retries (retries + 1)
  else (none, retries)
termination_by max_retries - retries
decreasing_by omega

/-- `run_agent_with_retry(task_plan, max_retries=3)`: run the loop with
the counter starting at zero; on exhaustion the Python function returns
`None`. -/
def run_agent_with_retry {α : Type} (agent : Nat → Option α)
    (max_retries : Nat := 3) : Option α × Nat :=
  run_agent_with_retry_loop agent max_retries 0

/-! ### The standard pipeline stages (`Blog_Pipeline.py`)

Each stage's single LLM call is abstracted as a function from the
prompt it is invoked on to an `Except String String`: `.ok content`
models a normal `response.content`, `.error e` models the call raising
an exception whose text is `e`. -/

/-- `fetch_daily_news`: build the grounding prompt, invoke the LLM, and
split the content into stripped non-blank lines; if the call raises,
return the one-element list holding an in-band failure string. -/
def fetch_daily_news (topic : String) (llm : String → Except String String) :
    List String :=
  let prompt := "\n        You have access to Google Search. Find the latest trending news about \""
    ++ topic ++ "\" from today.\n        Extract the top 5 distinct news headlines from the search results.\n        Return ONLY the headlines, one per line. Do not include introductory text.\n        "
  match llm prompt with
  | .ok content =>
    ((py_split_lines content).filter (fun h => py_strip h != "")).map py_strip
  | .error e => ["Failed to fetch news for " ++ topic ++ ": " ++ e]

/-- `research_topic`: invoke the grounded LLM; if the call raises,
return the in-band failure string. -/
def research_topic (topic : String) (llm : String → Except String String) :
    String :=
  let prompt := "\n        Research the following topic in depth: \"" ++ topic
    ++ "\".\n        Provide a comprehensive summary including:\n        1. Key details and context.\n        2. Analysis and expert opinions.\n        3. Recent developments.\n        \n        Use Google Search to ensure up-to-date and accurate information.\n        "
  match llm prompt with
  | .ok content => content
  | .error e => "Research failed: " ++ e

/-- `write_blog_post` (standard pipeline): build the writing prompt and
invoke the LLM.  Unlike the other standard stages there is no
`try/except` here, so a raised exception propagates to the caller —
modelled by returning the call's `Except` verbatim. -/
def write_blog_post (topic research_data : String)
    (llm : String → Except String String) : Except String String :=
  let prompt := "\n    You are an expert tech blooger. Write a comprehensive, engaging blog post about: \""
    ++ topic
    ++ "\".\n    \n    Use the following research data to ensure accuracy:\n    "
    ++ research_data
    ++ "\n    \n    Format the blog post in Markdown with:\n    - Catchy Title\n    - Introduction\n    - Key Takeaways (Bullet points)\n    - In-depth Analysis\n    - Conclusion\n    \n    Tone: Professional yet accessible.\n    "
  llm prompt

/-- The observable outcome of the Perplexity HTTPS request of
`run_perplexity_agent`: the status code, the extraction
`data['choices'][0]['message']['content']` when the JSON parse and the
field accesses succeed (`none` when that inner try raises), and the raw
response text. -/
structure HttpResponse where
  status_code : Nat
  content : Option String
  text : String
deriving DecidableEq, Repr

/-- `run_perplexity_agent` (tech pipeline, the research stage's leaf):
POST the payload built from the idea; on a 200 response return the
extracted content (or the raw text when the extraction raises), on any
other status print the error and return the empty string, and on a
raised request exception print the error and return the empty
string. -/
def run_perplexity_agent (idea : String)
    (post : String → Except String HttpResponse) : String :=
  match post idea with
  | .ok response =>
    if response.status_code = 200 then
      match response.content with
      | some c => c
      | none => response.text
    else ""
  | .error _ => ""

/-- `blog_writer` (tech pipeline): invoke the LLM on the writing
prompt; if the call raises, print the error and return the empty
string. -/
def blog_writer (research_data : String) (llm : String → Except String String) :
    String :=
  let prompt := "\n    You are an expert Technical Blog Writer Agent.\n    Write a complete, high-quality technical blog post based strictly on this research:\n    \n    "
    ++ research_data
    ++ "\n    \n    Format:\n    - Markdown (headers, code blocks if needed)\n    - Engaging Title\n    - Introduction\n    - Technical Depth\n    - Conclusion\n    \n    Do not mention 'Based on the research'. Just write the blog.\n    "
  match llm prompt with
  | .ok content => content
  | .error _ => ""

/-! ### API-key configuration (`Blog_Pipeline.py`)

The process environment is abstracted as `env : String → Option String`
(`os.getenv`). -/

/-- `DEFAULT_KEY = os.getenv("GOOGLE_API_KEY", "")`. -/
def DEFAULT_KEY (env : String → Option String) : String :=
  (env "GOOGLE_API_KEY").getD ""

/-- `KEY_FETCH = os.getenv("GOOGLE_API_KEY_FETCH", DEFAULT_KEY)`. -/
def KEY_FETCH (env : String → Option String) : String :=
  (env "GOOGLE_API_KEY_FETCH").getD (DEFAULT_KEY env)

/-- `KEY_RESEARCH = os.getenv("GOOGLE_API_KEY_RESEARCH", DEFAULT_KEY)`. -/
def KEY_RESEARCH (env : String → Option String) : String :=
  (env "GOOGLE_API_KEY_RESEARCH").getD (DEFAULT_KEY env)

/-- `KEY_WRITE = os.getenv("GOOGLE_API_KEY_WRITE", DEFAULT_KEY)`. -/
def KEY_WRITE (env : String → Option String) : String :=
  (env "GOOGLE_API_KEY_WRITE").getD (DEFAULT_KEY env)

/-- `KEY_PUBLISH = os.getenv("GOOGLE_API_KEY_PUBLISH", KEY_WRITE)` —
note the fallback is `KEY_WRITE`, not `DEFAULT_KEY`. -/
def KEY_PUBLISH (env : String → Option String) : String :=
  (env "GOOGLE_API_KEY_PUBLISH").getD (KEY_WRITE env)

/-- `get_api_key`. -/
def get_api_key (env : String → Option String) (type : String) : String :=
  if type = "FETCH" then KEY_FETCH env
  else if type = "RESEARCH" then KEY_RESEARCH env
  else if type = "WRITE" then KEY_WRITE env
  else if type = "PUBLISH" then KEY_PUBLISH env
  else DEFAULT_KEY env

/-! ### Concrete fixtures used by witnesses and counterexamples -/

/-- The initial technical-pipeline state built in `__main__`. -/
def initState (ideas_list : List String) : BlogState :=
  { ideas := ideas_list
    selected_ideas := []
    current_idea := none
    research_data := none
    blog_post := none
    completed_blogs := [] }

/-- A state whose queue holds the two ideas of the spec's example. -/
def stateXY : BlogState :=
  { initState [] with selected_ideas := ["X", "Y"] }

/-- Constant external services for concrete runs. -/
def extConst : ExternalCalls :=
  { perplexity := fun _ => "R", writer := fun _ => "B" }

/-- An environment with the shared key and the WRITE-stage key set, and
every other variable (in particular the PUBLISH-stage key) unset. -/
def envGW : String → Option String := fun k =>
  if k = "GOOGLE_API_KEY" then some "G"
  else if k = "GOOGLE_API_KEY_WRITE" then some "W"
  else none

/-! ### Helper lemmas about the technical loop -/

/-- One loop pass leaves the tail of the idea queue. -/
theorem loopBody_selected_eq (ext : ExternalCalls) (s : BlogState) :
    (loopBody ext s).selected_ideas = s.selected_ideas.tail := by
  cases h : s.selected_ideas <;>
    simp [loopBody, ghost_drafter_agent, blog_writer_agent, research_agent,
      pick_next_idea, h]

/-- One loop pass on a non-empty queue: drain the head, record its
blog, clear the in-flight fields. -/
theorem loopBody_cons_eq (ext : ExternalCalls) (s : BlogState) (a : String)
    (l : List String) (h : s.selected_ideas = a :: l) :
    loopBody ext s =
      { s with
        selected_ideas := l
        current_idea := none
        research_data := none
        blog_post := none
        completed_blogs := dictInsert s.completed_blogs (some a) (blogFor ext a) } := by
  simp [loopBody, ghost_drafter_agent, blog_writer_agent, research_agent,
    pick_next_idea, h, blogFor]

/-- Unfolding of the loop when the queue is empty after the pass. -/
theorem runTechLoop_end (ext : ExternalCalls) (s : BlogState)
    (h : (loopBody ext s).selected_ideas = []) :
    runTechLoop ext s = (loopBody ext s, 1) := by
  have hm : ¬ has_more_ideas (loopBody ext s) = "pick_next" := by
    simp [has_more_ideas, h]
  rw [runTechLoop]
  exact dif_neg hm

/-- Unfolding of the loop when the queue is still non-empty after the
pass. -/
theorem runTechLoop_step (ext : ExternalCalls) (s : BlogState)
    (h : (loopBody ext s).selected_ideas ≠ []) :
    runTechLoop ext s =
      ((runTechLoop ext (loopBody ext s)).1,
        (runTechLoop ext (loopBody ext s)).2 + 1) := by
  have hm : has_more_ideas (loopBody ext s) = "pick_next" := by
    simp [has_more_ideas, h]
  rw [runTechLoop]
  rw [dif_pos hm]

/-- Iteration count and final queue of the draining loop: a queue of
length `n` takes `max 1 n` passes and ends empty. -/
theorem runTechLoop_count (ext : ExternalCalls) :
    ∀ (n : Nat) (s : BlogState), s.selected_ideas.length = n →
      (runTechLoop ext s).2 = max 1 n ∧ (runTechLoop ext s).1.selected_ideas = [] := by
  intro n
  induction n with
  | zero =>
    intro s hs
    have hsel : s.selected_ideas = [] := List.length_eq_zero.mp hs
    have hb : (loopBody ext s).selected_ideas = [] := by
      rw [loopBody_selected_eq, hsel, List.tail_nil]
    rw [runTechLoop_end ext s hb]
    exact ⟨rfl, hb⟩
  | succ m ih =>
    intro s hs
    obtain ⟨a, l, hsel⟩ : ∃ a l, s.selected_ideas = a :: l := by
      cases hcase : s.selected_ideas with
      | nil => rw [hcase] at hs; simp at hs
      | cons a l => exact ⟨a, l, rfl⟩
    have hlen : l.length = m := by
      rw [hsel] at hs
      simpa using hs
    have hb : (loopBody ext s).selected_ideas = l := by
      rw [loopBody_selected_eq, hsel, List.tail_cons]
    by_cases hl : l = []
    · subst hl
      rw [runTechLoop_end ext s (by rw [hb])]
      refine ⟨?_, hb⟩
      have hm : m = 0 := by simpa using hlen.symm
      subst hm
      rfl
    · rw [runTechLoop_step ext s (by rw [hb]; exact hl)]
      have hih := ih (loopBody ext s) (by rw [hb]; exact hlen)
      refine ⟨?_, hih.2⟩
      have hm1 : 1 ≤ m := by
        have : l.length ≠ 0 := fun hz => hl (List.length_eq_zero.mp hz)
        omega
      show (runTechLoop ext (loopBody ext s)).2 + 1 = max 1 (m + 1)
      rw [hih.1]
      omega

/-- The completed-blogs dict after the loop drains a non-empty queue:
fold the per-idea insertions over the queue. -/
theorem runTechLoop_completed (ext : ExternalCalls) :
    ∀ (l : List String) (s : BlogState), s.selected_ideas = l → l ≠ [] →
      (runTechLoop ext s).1.completed_blogs
        = l.foldl (fun m x => dictInsert m (some x) (blogFor ext x))
            s.completed_blogs := by
  intro l
  induction l with
  | nil => intro s _ hne; exact absurd rfl hne
  | cons a l ih =>
    intro s hsel _
    have hbody := loopBody_cons_eq ext s a l hsel
    by_cases hl : l = []
    · subst hl
      have hb : (loopBody ext s).selected_ideas = [] := by rw [hbody]
      rw [runTechLoop_end ext s hb, hbody]
      simp
    · have hb : (loopBody ext s).selected_ideas = l := by rw [hbody]
      rw [runTechLoop_step ext s (by rw [hb]; exact hl)]
      have hih := ih (loopBody ext s) hb hl
      show (runTechLoop ext (loopBody ext s)).1.completed_blogs = _
      rw [hih, hbody]
      simp

/-- Folding fresh-key insertions over a duplicate-free list appends one
binding per element, in order. -/
theorem foldl_dictInsert_fresh (f : String → Option String) :
    ∀ (l : List String) (init : List (Option String × Option String)),
      l.Nodup → (∀ x ∈ l, ∀ p ∈ init, p.1 ≠ some x) →
      l.foldl (fun m x => dictInsert m (some x) (f x)) init
        = init ++ l.map (fun x => (some x, f x)) := by
  intro l
  induction l with
  | nil => intro init _ _; simp
  | cons a l ih =>
    intro init hnd hfresh
    obtain ⟨ha, hndl⟩ := List.nodup_cons.mp hnd
    have hnotin : init.any (fun p => p.1 == some a) = false := by
      rw [List.any_eq_false]
      intro p hp
      simpa using hfresh a (by simp) p hp
    have hins : dictInsert init (some a) (f a) = init ++ [(some a, f a)] := by
      simp [dictInsert, hnotin]
    rw [List.foldl_cons, hins,
      ih (init ++ [(some a, f a)]) hndl ?fresh]
    · simp
    case fresh =>
      intro x hx p hp
      rcases List.mem_append.mp hp with hp | hp
      · exact hfresh x (by simp [hx]) p hp
      · have hpa : p = (some a, f a) := by simpa using hp
        subst hpa
        simp only []
        intro hcontr
        have : a = x := by simpa using hcontr
        exact ha (this ▸ hx)

/-! ### Claim theorems -/

/-- C1: `run_agent_with_retry` with `max_retries = 3` re-invokes the
agent until an attempt succeeds or the bound is exhausted, with no
backoff in between: an agent that fails twice then succeeds yields the
successful result after exactly 3 invocations, and an agent that always
fails yields `None` (in-band, not raised) after exactly 3 invocations. -/
theorem claim_C1_retry_wrapper {α : Type} (a b : Nat → Option α) (v : α)
    (h0 : a 0 = none) (h1 : a 1 = none) (h2 : a 2 = some v)
    (hb : ∀ i, b i = none) :
    run_agent_with_retry a 3 = (some v, 3)
    ∧ run_agent_with_retry b 3 = (none, 3) := by
  constructor
  · simp [run_agent_with_retry, run_agent_with_retry_loop, h0, h1, h2]
  · simp [run_agent_with_retry, run_agent_with_retry_loop, hb]

/-- Witness for C1 at a concrete agent pair. -/
theorem claim_C1_retry_wrapper_witness :
    run_agent_with_retry (fun i => if i = 2 then some 7 else none) 3 = (some 7, 3)
    ∧ run_agent_with_retry (fun _ => (none : Option Nat)) 3 = (none, 3) :=
  claim_C1_retry_wrapper _ _ 7 rfl rfl rfl (fun _ => rfl)

/-- C2 (counterexample): with the idea queue empty after Select Ideas
(`N = 0`), the graph still runs one Picking→…→Drafting pass before
reaching `END`, so the number of iterations is not `N`. -/
theorem claim_C2_loop_iterations_cx :
    (runTechLoop extConst (initState [])).2 ≠ (initState []).selected_ideas.length := by
  rw [runTechLoop_end extConst (initState []) (by rw [loopBody_selected_eq]; rfl)]
  decide

/-- C2 (amended): for every finite idea queue present after Select
Ideas, the loop performs exactly `max 1 N` iterations — `N` for
`N ≥ 1`, but one full pass even when the queue is empty — and then
reaches the terminal state: the final queue is empty and the
conditional edge routes to `END`. -/
theorem claim_C2_loop_iterations (ext : ExternalCalls) (s : BlogState) :
    (runTechLoop ext s).2 = max 1 s.selected_ideas.length
    ∧ (runTechLoop ext s).1.selected_ideas = []
    ∧ has_more_ideas (runTechLoop ext s).1 = "__end__" := by
  obtain ⟨h1, h2⟩ := runTechLoop_count ext s.selected_ideas.length s rfl
  exact ⟨h1, h2, by simp [has_more_ideas, h2]⟩

/-- C3: on a non-empty queue, `pick_next_idea` pops the front element
into `current_idea` and leaves the rest of the queue (FIFO). -/
theorem claim_C3_pick_next_fifo (s : BlogState) (x : String) (rest : List String)
    (h : s.selected_ideas = x :: rest) :
    pick_next_idea s = { s with current_idea := some x, selected_ideas := rest } := by
  simp [pick_next_idea, h]

/-- Witness for C3 on `{selected_ideas: ["X","Y"]}`. -/
theorem claim_C3_pick_next_fifo_witness :
    pick_next_idea stateXY
      = { stateXY with current_idea := some "X", selected_ideas := ["Y"] } :=
  claim_C3_pick_next_fifo stateXY "X" ["Y"] rfl

/-- C4: on an empty queue, `pick_next_idea` is a no-op; in particular
`current_idea` keeps its previous value. -/
theorem claim_C4_pick_next_noop (s : BlogState) (h : s.selected_ideas = []) :
    pick_next_idea s = s ∧ (pick_next_idea s).current_idea = s.current_idea := by
  have : pick_next_idea s = s := by simp [pick_next_idea, h]
  exact ⟨this, by rw [this]⟩

/-- Witness for C4 on a concrete empty-queue state. -/
theorem claim_C4_pick_next_noop_witness :
    pick_next_idea (initState ["i"]) = initState ["i"]
    ∧ (pick_next_idea (initState ["i"])).current_idea = (initState ["i"]).current_idea :=
  claim_C4_pick_next_noop (initState ["i"]) rfl

/-- C5 (counterexample): on the selector output `["- A", "- A"]` —
valid list-literal text — `select_ideas` keeps both the duplicate and
the leading bullet markers, so the parsed queue is neither a sequence
of distinct strings nor bullet-free. -/
theorem claim_C5_parse_policy_cx :
    (select_ideas (.ok "[\"- A\", \"- A\"]") (initState [])).selected_ideas
      = ["- A", "- A"]
    ∧ ¬ (select_ideas (.ok "[\"- A\", \"- A\"]") (initState [])).selected_ideas.Nodup := by
  constructor
  · decide
  · decide

/-- C5 (amended): `select_ideas` parses the selector output into an
ordered sequence of non-blank strings (duplicates are kept, not
deduplicated), trying structured-literal parsing first and otherwise
treating each non-blank line as one idea with the characters of
`"- *"` stripped from its ends; strings produced by the literal branch
are kept verbatim, bullets included. -/
theorem claim_C5_parse_policy (llm : Except String String) (s : BlogState) :
    (∀ x ∈ (select_ideas llm s).selected_ideas, py_strip x ≠ "")
    ∧ (select_ideas (.ok "- A\n- B\n- B") s).selected_ideas = ["A", "B", "B"]
    ∧ (select_ideas (.ok "[\"A\", \"B\"]") s).selected_ideas = ["A", "B"] := by
  refine ⟨?_, by simp only [select_ideas]; decide, by simp only [select_ideas]; decide⟩
  intro x hx
  simp only [select_ideas] at hx
  have h2 := List.of_mem_filter hx
  simpa using h2

/-- Witness for C5 discharging the membership hypothesis of the
universal part at a concrete run. -/
theorem claim_C5_parse_policy_witness : py_strip "A" ≠ "" :=
  (claim_C5_parse_policy (.ok "- A\n- B\n- B") (initState [])).1 "A" (by decide)

/-- C6 (counterexample): draining the empty queue (`N = 0`, vacuously
pairwise distinct) still adds one entry to `completed_blogs`, keyed by
the `None` current idea — so the map size is not `N` and the key is not
a drained idea string. -/
theorem claim_C6_completed_blogs_cx :
    (runTechLoop extConst (initState [])).1.completed_blogs.length
      ≠ (initState []).selected_ideas.length
    ∧ (runTechLoop extConst (initState [])).1.completed_blogs.map Prod.fst = [none] := by
  rw [runTechLoop_end extConst (initState []) (by rw [loopBody_selected_eq]; rfl)]
  exact ⟨by decide, by decide⟩

/-- C6 (amended): for every non-empty queue of pairwise-distinct ideas
entering the loop with an empty completed-blogs map, the final map has
exactly one entry per drained idea: its size is `N`, its keys are
exactly the drained idea strings in order, and no key occurs twice. -/
theorem claim_C6_completed_blogs (ext : ExternalCalls) (l : List String)
    (s : BlogState) (hsel : s.selected_ideas = l) (hcb : s.completed_blogs = [])
    (hne : l ≠ []) (hnd : l.Nodup) :
    (runTechLoop ext s).1.completed_blogs.length = l.length
    ∧ (runTechLoop ext s).1.completed_blogs.map Prod.fst = l.map some
    ∧ ((runTechLoop ext s).1.completed_blogs.map Prod.fst).Nodup := by
  have h1 := runTechLoop_completed ext l s hsel hne
  rw [hcb, foldl_dictInsert_fresh (blogFor ext) l [] hnd
    (by intro x _ p hp; simp at hp)] at h1
  have hkeys : (runTechLoop ext s).1.completed_blogs.map Prod.fst = l.map some := by
    rw [h1]
    simp [List.map_map, Function.comp]
  refine ⟨by rw [h1]; simp, hkeys, ?_⟩
  rw [hkeys]
  exact hnd.map (Option.some_injective String)

/-- Witness for C6 on the two-idea queue `["X","Y"]`. -/
theorem claim_C6_completed_blogs_witness :
    (runTechLoop extConst stateXY).1.completed_blogs.length = 2
    ∧ (runTechLoop extConst stateXY).1.completed_blogs.map Prod.fst
        = [some "X", some "Y"] := by
  have h := claim_C6_completed_blogs extConst ["X", "Y"] stateXY rfl rfl
    (by decide) (by decide)
  exact ⟨h.1, h.2.1⟩

/-- C7: after the Draft stage, `current_idea`, `blog_post` and
`research_data` are all cleared to `None`, for every input state. -/
theorem claim_C7_draft_clears (s : BlogState) :
    (ghost_drafter_agent s).current_idea = none
    ∧ (ghost_drafter_agent s).blog_post = none
    ∧ (ghost_drafter_agent s).research_data = none := by
  simp [ghost_drafter_agent]

/-- C8 (counterexample): the claim fails on three in-scope stages when
their external call fails with exception text "boom" — the standard
write stage `write_blog_post` has no handler and propagates the raised
fault instead of returning an in-band string, while the technical
research stage `run_perplexity_agent` and the technical write stage
`blog_writer` return the empty string, a placeholder that carries no
description of the failure (it does not even contain "boom"). -/
theorem claim_C8_stage_degradation_cx :
    write_blog_post "T" "R" (fun _ => .error "boom") = .error "boom"
    ∧ run_perplexity_agent "T" (fun _ => .error "boom") = ""
    ∧ blog_writer "R" (fun _ => .error "boom") = ""
    ∧ ¬ List.IsInfix "boom".data (blog_writer "R" (fun _ => .error "boom")).data := by
  exact ⟨rfl, rfl, rfl, by decide⟩

/-- C8 (amended): on failure of the external call, the standard fetch
and research stages return a human-readable failure string describing
the failure and the pipeline proceeds; the technical research stage
(`run_perplexity_agent`, both on a raised request and on a non-200
response) and the technical write stage (`blog_writer`) do not raise
either but return the empty string, an in-band placeholder with no
failure description; and the standard write stage (`write_blog_post`)
has no handler at all, so its failure propagates as a raised fault. -/
theorem claim_C8_stage_degradation (topic rd idea e : String) :
    fetch_daily_news topic (fun _ => .error e)
      = ["Failed to fetch news for " ++ topic ++ ": " ++ e]
    ∧ research_topic topic (fun _ => .error e) = "Research failed: " ++ e
    ∧ run_perplexity_agent idea (fun _ => .error e) = ""
    ∧ (∀ r : HttpResponse, r.status_code ≠ 200 →
        run_perplexity_agent idea (fun _ => .ok r) = "")
    ∧ blog_writer rd (fun _ => .error e) = ""
    ∧ write_blog_post topic rd (fun _ => .error e) = .error e := by
  refine ⟨rfl, rfl, rfl, ?_, rfl, rfl⟩
  intro r hr
  simp [run_perplexity_agent, hr]

/-- Witness for C8 discharging the non-200 hypothesis at a concrete
response. -/
theorem claim_C8_stage_degradation_witness :
    run_perplexity_agent "T" (fun _ => .ok ⟨500, none, "err"⟩) = "" :=
  (claim_C8_stage_degradation "T" "R" "T" "boom").2.2.2.1 ⟨500, none, "err"⟩ (by decide)

/-- C9 (counterexample): with the PUBLISH-stage key unset, the
WRITE-stage key set to "W" and the shared default `GOOGLE_API_KEY` set
to "G", `get_api_key "PUBLISH"` returns "W", not the shared default —
the PUBLISH fallback goes through the WRITE key. -/
theorem claim_C9_key_fallback_cx :
    envGW "GOOGLE_API_KEY_PUBLISH" = none
    ∧ DEFAULT_KEY envGW = "G"
    ∧ get_api_key envGW "PUBLISH" = "W"
    ∧ ("W" : String) ≠ "G" := by
  refine ⟨rfl, rfl, rfl, by decide⟩

/-- C9 (amended): FETCH, RESEARCH and WRITE fall back from their
stage-specific key directly to the shared default `GOOGLE_API_KEY`;
PUBLISH falls back first to the WRITE-stage key and only then to the
shared default; any other stage name gets the shared default. -/
theorem claim_C9_key_fallback (env : String → Option String) :
    get_api_key env "FETCH"
      = (env "GOOGLE_API_KEY_FETCH").getD ((env "GOOGLE_API_KEY").getD "")
    ∧ get_api_key env "RESEARCH"
      = (env "GOOGLE_API_KEY_RESEARCH").getD ((env "GOOGLE_API_KEY").getD "")
    ∧ get_api_key env "WRITE"
      = (env "GOOGLE_API_KEY_WRITE").getD ((env "GOOGLE_API_KEY").getD "")
    ∧ get_api_key env "PUBLISH"
      = (env "GOOGLE_API_KEY_PUBLISH").getD
          ((env "GOOGLE_API_KEY_WRITE").getD ((env "GOOGLE_API_KEY").getD ""))
    ∧ ∀ t : String, t ≠ "FETCH" → t ≠ "RESEARCH" → t ≠ "WRITE" → t ≠ "PUBLISH" →
        get_api_key env t = (env "GOOGLE_API_KEY").getD "" := by
  refine ⟨rfl, rfl, rfl, rfl, ?_⟩
  intro t h1 h2 h3 h4
  unfold get_api_key
  rw [if_neg h1, if_neg h2, if_neg h3, if_neg h4]
  rfl

/-- Witness for C9 discharging the disequality hypotheses of the
catch-all branch at a concrete stage name. -/
theorem claim_C9_key_fallback_witness : get_api_key envGW "OTHER" = "G" := by
  have h := (claim_C9_key_fallback envGW).2.2.2.2 "OTHER"
    (by decide) (by decide) (by decide) (by decide)
  rw [h]
  rfl

/-- C10: `select_ideas` always resets `completed_blogs` to the empty
map, discarding previously completed blogs, and leaves every field
other than `selected_ideas` and `completed_blogs` unchanged. -/
theorem claim_C10_select_resets (llm : Except String String) (s : BlogState) :
    (select_ideas llm s).completed_blogs = []
    ∧ (select_ideas llm s).ideas = s.ideas
    ∧ (select_ideas llm s).current_idea = s.current_idea
    ∧ (select_ideas llm s).research_data = s.research_data
    ∧ (select_ideas llm s).blog_post = s.blog_post := by
  simp [select_ideas]

end BlogWriter
